import Mathlib

/-!
Verification of the YUME coin-catcher simulation core.

The game logic lives in one source file: constants, the difficulty model,
the entity factory (`spawnCollectible` / `spawnObstacle`), per-tick physics
and scrolling inside `gameLoop`, the collision resolver `checkCollisions`,
the one-second timer reducer, the jump handler and the restart reducer.
JavaScript numbers are modelled as rationals; every call to the host's
random generator becomes an explicit rational parameter in the interval
obtained from the source (`Math.random()` yields a draw in the half-open
unit interval).
-/

namespace YumeCatcher

inductive CollectibleType
  | token
  | moonRocket
  | diamondHands
deriving DecidableEq, Repr

inductive ObstacleType
  | rugPull
  | marketDump
  | whaleWave
deriving DecidableEq, Repr

structure Player where
  x : ℚ
  y : ℚ
  width : ℚ
  height : ℚ
  velocity : ℚ
  isInvincible : Bool
  hasDoublePoints : Bool
deriving DecidableEq, Repr

structure Collectible where
  x : ℚ
  y : ℚ
  width : ℚ
  height : ℚ
  rotation : ℚ
  type : CollectibleType
deriving DecidableEq, Repr

structure Obstacle where
  x : ℚ
  y : ℚ
  width : ℚ
  height : ℚ
  rotation : ℚ
  type : ObstacleType
deriving DecidableEq, Repr

structure GameState where
  player : Player
  collectibles : List Collectible
  obstacles : List Obstacle
  score : ℚ
  timeLeft : ℚ
  isGameOver : Bool
  isPaused : Bool
deriving DecidableEq, Repr

/-- `BASE_GAME_WIDTH = 800` -/
def BASE_GAME_WIDTH : ℚ := 800

/-- `BASE_GAME_HEIGHT = 600` -/
def BASE_GAME_HEIGHT : ℚ := 600

/-- `GRAVITY = 0.3` -/
def GRAVITY : ℚ := 3/10

/-- `JUMP_FORCE = -7` -/
def JUMP_FORCE : ℚ := -7

/-- `PLAYER_SIZE = 40` -/
def PLAYER_SIZE : ℚ := 40

/-- `INITIAL_TIME = 30` -/
def INITIAL_TIME : ℚ := 30

/-- `TIME_BONUS = { token: 2, moonRocket: 5, diamondHands: 3 }` -/
def TIME_BONUS : CollectibleType → ℚ
  | .token => 2
  | .moonRocket => 5
  | .diamondHands => 3

/-- `SCORE_VALUES = { token: 10, moonRocket: 15, diamondHands: 20 }` -/
def SCORE_VALUES : CollectibleType → ℚ
  | .token => 10
  | .moonRocket => 15
  | .diamondHands => 20

/-- `BASE_HORIZONTAL_SPEED = 3` -/
def BASE_HORIZONTAL_SPEED : ℚ := 3

/-- `BASE_OBSTACLE_SPEED = 4` -/
def BASE_OBSTACLE_SPEED : ℚ := 4

/-- `BASE_SPAWN_RATE.collectible = 0.015` -/
def BASE_SPAWN_RATE_collectible : ℚ := 15/1000

/-- `BASE_SPAWN_RATE.obstacle = 0.008` -/
def BASE_SPAWN_RATE_obstacle : ℚ := 8/1000

/-- `getDifficultyMultiplier(score) = 1 + Math.floor(score / 100) * 0.2` -/
def getDifficultyMultiplier (score : ℚ) : ℚ :=
  1 + (⌊score / 100⌋ : ℚ) * (2/10)

/-- `getSpawnRates(score)`: the pair (collectible rate, obstacle rate),
each the base rate scaled by the multiplier and capped (0.03 and 0.02). -/
def getSpawnRates (score : ℚ) : ℚ × ℚ :=
  let multiplier := getDifficultyMultiplier score
  (min (BASE_SPAWN_RATE_collectible * multiplier) (3/100),
   min (BASE_SPAWN_RATE_obstacle * multiplier) (2/100))

/-- `getSpeeds(score)`: the pair (horizontal collectible speed, obstacle speed). -/
def getSpeeds (score : ℚ) : ℚ × ℚ :=
  let multiplier := getDifficultyMultiplier score
  (BASE_HORIZONTAL_SPEED * multiplier, BASE_OBSTACLE_SPEED * multiplier)

/-- The `initialPlayer` constant of the source. -/
def initialPlayer : Player :=
  { x := 100
    y := BASE_GAME_HEIGHT / 2
    width := PLAYER_SIZE
    height := PLAYER_SIZE
    velocity := 0
    isInvincible := false
    hasDoublePoints := false }

/-- The initial state passed to `useState` in `Game`. -/
def initialGameState : GameState :=
  { player := initialPlayer
    collectibles := []
    obstacles := []
    score := 0
    timeLeft := INITIAL_TIME
    isGameOver := false
    isPaused := false }

/-- `handleInteraction`: the jump trigger; sets the player's velocity to
`JUMP_FORCE` unconditionally (no gating on pause or game-over). -/
def handleInteraction (prev : GameState) : GameState :=
  { prev with player := { prev.player with velocity := JUMP_FORCE } }

/-- `types[Math.floor(Math.random() * types.length)]` for the collectible
kind array `[token, moonRocket, diamondHands]`; `r` is the raw draw. -/
def pickCollectibleType (r : ℚ) : CollectibleType :=
  if ⌊r * 3⌋ = 0 then .token
  else if ⌊r * 3⌋ = 1 then .moonRocket
  else .diamondHands

/-- `types[Math.floor(Math.random() * types.length)]` for the obstacle
kind array `[rugPull, marketDump, whaleWave]`. -/
def pickObstacleType (r : ℚ) : ObstacleType :=
  if ⌊r * 3⌋ = 0 then .rugPull
  else if ⌊r * 3⌋ = 1 then .marketDump
  else .whaleWave

/-- `spawnCollectible()`: the three random draws of the source become the
parameters `rType`, `rY`, `rRot`. Note the vertical range uses
`BASE_GAME_HEIGHT - PLAYER_SIZE` and the size is `PLAYER_SIZE` square. -/
def spawnCollectible (rType rY rRot : ℚ) : Collectible :=
  { type := pickCollectibleType rType
    x := BASE_GAME_WIDTH
    y := rY * (BASE_GAME_HEIGHT - PLAYER_SIZE)
    width := PLAYER_SIZE
    height := PLAYER_SIZE
    rotation := rRot * 360 }

/-- `spawnObstacle()`: as in the source, the vertical range again uses
`BASE_GAME_HEIGHT - PLAYER_SIZE` (not the obstacle's own size), while the
obstacle measures `PLAYER_SIZE * 1.5` in both dimensions. -/
def spawnObstacle (rType rY rRot : ℚ) : Obstacle :=
  { type := pickObstacleType rType
    x := BASE_GAME_WIDTH
    y := rY * (BASE_GAME_HEIGHT - PLAYER_SIZE)
    width := PLAYER_SIZE * (3/2)
    height := PLAYER_SIZE * (3/2)
    rotation := rRot * 360 }

/-- `updateScore(collectibleType, hasDoublePoints)`. -/
def updateScore (t : CollectibleType) (hasDoublePoints : Bool) : ℚ :=
  SCORE_VALUES t * (if hasDoublePoints then 2 else 1)

/-- The axis-aligned bounding-box overlap test used by `checkCollisions`:
`a.x < b.x + b.w && a.x + a.w > b.x && a.y < b.y + b.h && a.y + a.h > b.y`. -/
def overlapsBB (ax ay aw ah ox oy ow oh : ℚ) : Bool :=
  decide (ax < ox + ow) && decide (ax + aw > ox) &&
  decide (ay < oy + oh) && decide (ay + ah > oy)

/-- The `hasCollided` test of `checkCollisions` against a collectible. -/
def collidesWithCollectible (p : Player) (c : Collectible) : Bool :=
  overlapsBB p.x p.y p.width p.height c.x c.y c.width c.height

/-- The obstacle overlap test of `checkCollisions`. -/
def collidesWithObstacle (p : Player) (o : Obstacle) : Bool :=
  overlapsBB p.x p.y p.width p.height o.x o.y o.width o.height

/-- The values accumulated by the side-effecting `filter` callback inside
`checkCollisions`: the surviving collectibles plus the running `newScore`,
`timeBonus`, `isInvincible` and `hasDoublePoints` locals. -/
structure CollectResult where
  remaining : List Collectible
  score : ℚ
  timeBonus : ℚ
  isInvincible : Bool
  hasDoublePoints : Bool
deriving DecidableEq, Repr

/-- The left-to-right walk of `collectibles.filter(...)` in `checkCollisions`.
Collided entries are dropped; each one adds its time bonus, adds
`updateScore(type, player.hasDoublePoints)` (the ORIGINAL player's flag,
not the running local), and arms the matching status flag. -/
def processCollectibles (p : Player) (score timeBonus : ℚ)
    (inv dp : Bool) : List Collectible → CollectResult
  | [] =>
    { remaining := []
      score := score
      timeBonus := timeBonus
      isInvincible := inv
      hasDoublePoints := dp }
  | c :: rest =>
    if collidesWithCollectible p c then
      let timeBonus := timeBonus + TIME_BONUS c.type
      let score := score + updateScore c.type p.hasDoublePoints
      let dp := if c.type = CollectibleType.moonRocket then true else dp
      let inv := if c.type = CollectibleType.diamondHands then true else inv
      processCollectibles p score timeBonus inv dp rest
    else
      let r := processCollectibles p score timeBonus inv dp rest
      { r with remaining := c :: r.remaining }

/-- `checkCollisions(state)`: collect overlapping collectibles, test every
obstacle, and build the returned snapshot. `isGameOver` uses the
post-collection `isInvincible` local and the PRE-tick `state.timeLeft`. -/
def checkCollisions (state : GameState) : GameState :=
  let r := processCollectibles state.player state.score 0
    state.player.isInvincible state.player.hasDoublePoints state.collectibles
  let hasHitObstacle := state.obstacles.any fun o => collidesWithObstacle state.player o
  { state with
    player := { state.player with
      isInvincible := r.isInvincible
      hasDoublePoints := r.hasDoublePoints }
    collectibles := r.remaining
    score := r.score
    timeLeft := state.timeLeft + r.timeBonus
    isGameOver := (hasHitObstacle && !r.isInvincible) || decide (state.timeLeft ≤ 0) }

/-- The collectible cull-and-scroll step of `gameLoop`:
`prev.collectibles.filter(c => c.x > -PLAYER_SIZE).map(c => x - move)`.
The source compares against `-PLAYER_SIZE` for collectibles. -/
def scrollCollectibles (cs : List Collectible) (move : ℚ) : List Collectible :=
  (cs.filter fun c => decide (c.x > -PLAYER_SIZE)).map fun c => { c with x := c.x - move }

/-- The obstacle cull-and-scroll step of `gameLoop`: the source compares
against `-PLAYER_SIZE` here as well, not against the obstacle's own size. -/
def scrollObstacles (os : List Obstacle) (move : ℚ) : List Obstacle :=
  (os.filter fun o => decide (o.x > -PLAYER_SIZE)).map fun o => { o with x := o.x - move }

/-- The physics step of `gameLoop` (gravity, integration, then the two
sequential clamps exactly as in the source: ceiling clamp zeroing velocity,
then floor clamp flooring velocity at 0 on the already-clamped y). -/
def integratePlayer (p : Player) : Player :=
  let newVelocity := p.velocity + GRAVITY
  let newY := p.y + newVelocity
  let yCeil := if newY > BASE_GAME_HEIGHT - PLAYER_SIZE then BASE_GAME_HEIGHT - PLAYER_SIZE else newY
  let vCeil := if newY > BASE_GAME_HEIGHT - PLAYER_SIZE then 0 else newVelocity
  let yFinal := if yCeil < 0 then 0 else yCeil
  let vFinal := if yCeil < 0 then max 0 vCeil else vCeil
  { p with y := yFinal, velocity := vFinal }

/-- The random draws consumed by one evaluated tick: the two spawn-decision
draws and the three draws of each factory call (consumed only when the
corresponding spawn fires, which does not change their modelling). -/
structure TickRand where
  spawnC : ℚ
  spawnO : ℚ
  cType : ℚ
  cY : ℚ
  cRot : ℚ
  oType : ℚ
  oY : ℚ
  oRot : ℚ
deriving Repr

/-- The body of the `setGameState` updater inside `gameLoop`, evaluated when
`deltaTime > 16`: passthrough when game-over or paused, else gravity
integration with floor/ceiling clamps, cull-scroll-spawn for both entity
lists, then `checkCollisions`. -/
def gameLoopTick (prev : GameState) (deltaTime : ℚ) (r : TickRand) : GameState :=
  if prev.isGameOver || prev.isPaused then prev
  else
    let newPlayer := integratePlayer prev.player
    let spawnRates := getSpawnRates prev.score
    let speeds := getSpeeds prev.score
    let shouldSpawnCollectible := decide (r.spawnC < spawnRates.1)
    let shouldSpawnObstacle := decide (r.spawnO < spawnRates.2)
    let timeScale := deltaTime / 16
    let horizontalMove := speeds.1 * timeScale
    let obstacleMove := speeds.2 * timeScale
    let newCollectibles :=
      scrollCollectibles prev.collectibles horizontalMove ++
        (if shouldSpawnCollectible then [spawnCollectible r.cType r.cY r.cRot] else [])
    let newObstacles :=
      scrollObstacles prev.obstacles obstacleMove ++
        (if shouldSpawnObstacle then [spawnObstacle r.oType r.oY r.oRot] else [])
    checkCollisions
      { prev with
        player := newPlayer
        collectibles := newCollectibles
        obstacles := newObstacles }

/-- The one-second timer reducer: `timeLeft := Math.max(0, timeLeft - 1)`. -/
def timerTick (prev : GameState) : GameState :=
  { prev with timeLeft := max 0 (prev.timeLeft - 1) }

/-- The deferred 5000 ms callback armed on collecting a `moonRocket`: it
merges `hasDoublePoints := false` into whatever snapshot is current. -/
def clearDoublePoints (prev : GameState) : GameState :=
  { prev with player := { prev.player with hasDoublePoints := false } }

/-- The deferred 3000 ms callback armed on collecting a `diamondHands`: it
merges `isInvincible := false` into whatever snapshot is current. -/
def clearInvincibility (prev : GameState) : GameState :=
  { prev with player := { prev.player with isInvincible := false } }

/-- `restartGame`: replaces the session with the documented default. -/
def restartGame : GameState :=
  { player := initialPlayer
    collectibles := []
    obstacles := []
    score := 0
    timeLeft := INITIAL_TIME
    isGameOver := false
    isPaused := false }

/-! ## Concrete sample data used by witnesses and counterexamples -/

/-- A token placed on top of the default player position. -/
def sampleToken : Collectible :=
  { x := 100, y := 300, width := 40, height := 40, rotation := 0, type := .token }

/-- A double-points power-up placed on top of the default player position. -/
def sampleRocket : Collectible :=
  { x := 100, y := 300, width := 40, height := 40, rotation := 0, type := .moonRocket }

/-- An invincibility power-up placed on top of the default player position. -/
def sampleGem : Collectible :=
  { x := 100, y := 300, width := 40, height := 40, rotation := 0, type := .diamondHands }

/-- An obstacle placed on top of the default player position. -/
def sampleObstacle : Obstacle :=
  { x := 100, y := 300, width := 60, height := 60, rotation := 0, type := .rugPull }

/-- An obstacle sitting at x = −50: already past −40 but not past −60. -/
def strayObstacle : Obstacle :=
  { x := -50, y := 0, width := 60, height := 60, rotation := 0, type := .rugPull }

/-- A fixed bundle of draws, all one half, for concrete tick evaluations. -/
def sampleRand : TickRand :=
  { spawnC := 1/2, spawnO := 1/2, cType := 1/2, cY := 1/2, cRot := 1/2,
    oType := 1/2, oY := 1/2, oRot := 1/2 }

/-- A session with a `moonRocket` and a `token` both overlapping the
default player, whose double-points flag is off. -/
def c10State : GameState :=
  { player := initialPlayer
    collectibles := [sampleRocket, sampleToken]
    obstacles := []
    score := 0
    timeLeft := 30
    isGameOver := false
    isPaused := false }

/-- The default session, paused. -/
def pausedState : GameState := { initialGameState with isPaused := true }

/-- A session just after restart whose player has re-armed double points by
collecting a `moonRocket` in the new run. -/
def postRestartArmed : GameState :=
  { restartGame with player := { initialPlayer with hasDoublePoints := true } }

/-! ## Characterization of the collectible walk -/

theorem processCollectibles_remaining (p : Player) (cs : List Collectible) :
    ∀ s t i d, (processCollectibles p s t i d cs).remaining =
      cs.filter fun c => !collidesWithCollectible p c := by
  induction cs with
  | nil => intro s t i d; simp [processCollectibles]
  | cons c rest ih =>
    intro s t i d
    by_cases h : collidesWithCollectible p c
    · simp [processCollectibles, h, ih]
    · simp [processCollectibles, h, ih]

theorem processCollectibles_score (p : Player) (cs : List Collectible) :
    ∀ s t i d, (processCollectibles p s t i d cs).score =
      s + ((cs.filter fun c => collidesWithCollectible p c).map
        fun c => updateScore c.type p.hasDoublePoints).sum := by
  induction cs with
  | nil => intro s t i d; simp [processCollectibles]
  | cons c rest ih =>
    intro s t i d
    by_cases h : collidesWithCollectible p c
    · simp [processCollectibles, h, ih]; ring
    · simp [processCollectibles, h, ih]

theorem processCollectibles_timeBonus (p : Player) (cs : List Collectible) :
    ∀ s t i d, (processCollectibles p s t i d cs).timeBonus =
      t + ((cs.filter fun c => collidesWithCollectible p c).map
        fun c => TIME_BONUS c.type).sum := by
  induction cs with
  | nil => intro s t i d; simp [processCollectibles]
  | cons c rest ih =>
    intro s t i d
    by_cases h : collidesWithCollectible p c
    · simp [processCollectibles, h, ih]; ring
    · simp [processCollectibles, h, ih]

theorem processCollectibles_isInvincible (p : Player) (cs : List Collectible) :
    ∀ s t i d, (processCollectibles p s t i d cs).isInvincible =
      (i || cs.any fun c =>
        collidesWithCollectible p c && c.type == CollectibleType.diamondHands) := by
  induction cs with
  | nil => intro s t i d; simp [processCollectibles]
  | cons c rest ih =>
    intro s t i d
    by_cases h : collidesWithCollectible p c
    · by_cases ht : c.type = CollectibleType.diamondHands
      · simp [processCollectibles, h, ht, ih]
      · have hb : (c.type == CollectibleType.diamondHands) = false := by
          simp [ht]
        simp [processCollectibles, h, ht, ih, hb]
    · simp [processCollectibles, h, ih]

theorem processCollectibles_hasDoublePoints (p : Player) (cs : List Collectible) :
    ∀ s t i d, (processCollectibles p s t i d cs).hasDoublePoints =
      (d || cs.any fun c =>
        collidesWithCollectible p c && c.type == CollectibleType.moonRocket) := by
  induction cs with
  | nil => intro s t i d; simp [processCollectibles]
  | cons c rest ih =>
    intro s t i d
    by_cases h : collidesWithCollectible p c
    · by_cases ht : c.type = CollectibleType.moonRocket
      · simp [processCollectibles, h, ht, ih]
      · have hb : (c.type == CollectibleType.moonRocket) = false := by
          simp [ht]
        simp [processCollectibles, h, ht, ih, hb]
    · simp [processCollectibles, h, ih]

/-! ## Claim theorems -/

/-- C1: after collision resolution of an evaluated tick, `isGameOver` holds
if and only if the player's bounding box overlaps some obstacle's and the
player is not invincible — counting invincibility armed by a `diamondHands`
collected in that same tick — or the pre-tick `timeLeft` is at most 0; in
particular a same-tick invincibility pickup suppresses a lethal overlap. -/
theorem c1_gameOver_iff (s : GameState) :
    (checkCollisions s).isGameOver = true ↔
      ((∃ o ∈ s.obstacles, collidesWithObstacle s.player o = true) ∧
        ¬(s.player.isInvincible = true ∨
          ∃ c ∈ s.collectibles, collidesWithCollectible s.player c = true ∧
            c.type = CollectibleType.diamondHands)) ∨
      s.timeLeft ≤ 0 := by
  simp only [checkCollisions, processCollectibles_isInvincible]
  simp [List.any_eq_true, Bool.and_eq_true, Bool.or_eq_true, not_or]

/-- C2: in every tick, each collectible overlapping the player is removed
from the active set; the score grows by `baseScore * 2` with double points
(`* 1` otherwise) for every one of them, the time-left grows by the sum of
their time bonuses (all simultaneous pickups honored), and a token is
worth exactly 10 undoubled and exactly 20 doubled. -/
theorem c2_collectible_pickup (s : GameState) :
    (checkCollisions s).collectibles =
      (s.collectibles.filter fun c => !collidesWithCollectible s.player c) ∧
    (checkCollisions s).score = s.score +
      ((s.collectibles.filter fun c => collidesWithCollectible s.player c).map
        fun c => SCORE_VALUES c.type * (if s.player.hasDoublePoints then 2 else 1)).sum ∧
    (checkCollisions s).timeLeft = s.timeLeft +
      ((s.collectibles.filter fun c => collidesWithCollectible s.player c).map
        fun c => TIME_BONUS c.type).sum ∧
    updateScore CollectibleType.token false = 10 ∧
    updateScore CollectibleType.token true = 20 := by
  refine ⟨?_, ?_, ?_, ?_, ?_⟩
  · simp [checkCollisions, processCollectibles_remaining]
  · simp [checkCollisions, processCollectibles_score, updateScore]
  · simp [checkCollisions, processCollectibles_timeBonus]
  · simp [updateScore, SCORE_VALUES]
  · norm_num [updateScore, SCORE_VALUES]

/-- C10: every pickup in a tick is scored with the player's pre-tick
`hasDoublePoints`; when that flag is false every collected item contributes
its undoubled base value, even when a `moonRocket` collected in the same
tick arms the flag for the resulting state. -/
theorem c10_pretick_double_points (s : GameState)
    (h : s.player.hasDoublePoints = false) :
    (checkCollisions s).score = s.score +
      ((s.collectibles.filter fun c => collidesWithCollectible s.player c).map
        fun c => SCORE_VALUES c.type).sum ∧
    ((s.collectibles.any fun c =>
        collidesWithCollectible s.player c && c.type == CollectibleType.moonRocket) = true →
      (checkCollisions s).player.hasDoublePoints = true) := by
  constructor
  · simp [checkCollisions, processCollectibles_score, updateScore, h]
  · intro ha
    simp [checkCollisions, processCollectibles_hasDoublePoints, ha]

/-- C10 witness: collecting a `moonRocket` (15) and a `token` in the same
tick with double points initially off yields 15 + 10 = 25, the token NOT
doubled, while the resulting player has double points armed. -/
theorem c10_pretick_double_points_witness :
    (checkCollisions c10State).score = 25 ∧
    (checkCollisions c10State).player.hasDoublePoints = true := by
  have h := c10_pretick_double_points c10State rfl
  refine ⟨?_, h.2 ?_⟩
  · rw [h.1]
    norm_num [c10State, sampleRocket, sampleToken, initialPlayer, collidesWithCollectible,
      overlapsBB, SCORE_VALUES, BASE_GAME_HEIGHT, PLAYER_SIZE]
  · norm_num [c10State, sampleRocket, sampleToken, initialPlayer, collidesWithCollectible,
      overlapsBB, BASE_GAME_HEIGHT, PLAYER_SIZE]

/-- C6: the difficulty multiplier is `1 + floor(score/100) * 0.2` for every
score at least 0, is monotonically non-decreasing, and increases by exactly
0.2 at each multiple of 100. -/
theorem c6_difficulty_multiplier :
    (∀ s : ℚ, 0 ≤ s → getDifficultyMultiplier s = 1 + (⌊s / 100⌋ : ℚ) * (2/10)) ∧
    (∀ s t : ℚ, 0 ≤ s → s ≤ t →
      getDifficultyMultiplier s ≤ getDifficultyMultiplier t) ∧
    (∀ k : ℕ, getDifficultyMultiplier (100 * (k + 1)) =
      getDifficultyMultiplier (100 * k) + 2/10) := by
  refine ⟨fun s _ => rfl, fun s t hs hst => ?_, fun k => ?_⟩
  · unfold getDifficultyMultiplier
    have hfl : ⌊s / 100⌋ ≤ ⌊t / 100⌋ := by
      apply Int.floor_le_floor
      linarith
    have hflq : (⌊s / 100⌋ : ℚ) ≤ (⌊t / 100⌋ : ℚ) := by exact_mod_cast hfl
    linarith
  · unfold getDifficultyMultiplier
    have h1 : (100 * ((k : ℚ) + 1)) / 100 = ((k + 1 : ℕ) : ℚ) := by push_cast; ring
    have h2 : (100 * (k : ℚ)) / 100 = ((k : ℕ) : ℚ) := by ring
    rw [h1, h2, Int.floor_natCast, Int.floor_natCast]
    push_cast
    ring

/-- C6 witness: the multiplier at score 50 is at most the one at score 150,
and stepping from score 100 to score 200 adds exactly 0.2. -/
theorem c6_difficulty_multiplier_witness :
    getDifficultyMultiplier 50 ≤ getDifficultyMultiplier 150 ∧
    getDifficultyMultiplier (100 * ((1 : ℕ) + 1)) =
      getDifficultyMultiplier (100 * (1 : ℕ)) + 2/10 :=
  ⟨c6_difficulty_multiplier.2.1 50 150 (by norm_num) (by norm_num),
   c6_difficulty_multiplier.2.2 1⟩

/-- C4 counterexample: with vertical draw 0.99 — a legal `Math.random()`
outcome — the spawned obstacle has y = 554.4, above the claimed ceiling
`playfieldHeight − obstacleSize = 540`, because the source subtracts
`PLAYER_SIZE` (40) rather than the obstacle's own size. -/
theorem c4_counterexample :
    (0 : ℚ) ≤ 99/100 ∧ (99/100 : ℚ) < 1 ∧
    (spawnObstacle (1/2) (99/100) (1/2)).y = 2772/5 ∧
    BASE_GAME_HEIGHT - (spawnObstacle (1/2) (99/100) (1/2)).height < 2772/5 := by
  norm_num [spawnObstacle, BASE_GAME_HEIGHT, PLAYER_SIZE]

/-- C4 (amended): both factories spawn at x = 800 with the documented sizes
(40-square collectibles, 60-square obstacles), and BOTH draw y uniformly
from `[0, playfieldHeight − PLAYER_SIZE) = [0, 560)` — the obstacle's own
size is not used, so obstacle y may exceed 540. -/
theorem c4_spawn_amended (rT rY rR : ℚ) (h0 : 0 ≤ rY) (h1 : rY < 1) :
    ((spawnCollectible rT rY rR).x = BASE_GAME_WIDTH ∧
     (spawnCollectible rT rY rR).width = 40 ∧
     (spawnCollectible rT rY rR).height = 40 ∧
     0 ≤ (spawnCollectible rT rY rR).y ∧
     (spawnCollectible rT rY rR).y < BASE_GAME_HEIGHT - PLAYER_SIZE) ∧
    ((spawnObstacle rT rY rR).x = BASE_GAME_WIDTH ∧
     (spawnObstacle rT rY rR).width = 60 ∧
     (spawnObstacle rT rY rR).height = 60 ∧
     0 ≤ (spawnObstacle rT rY rR).y ∧
     (spawnObstacle rT rY rR).y < BASE_GAME_HEIGHT - PLAYER_SIZE) := by
  have hy0 : (0 : ℚ) ≤ rY * (BASE_GAME_HEIGHT - PLAYER_SIZE) := by
    apply mul_nonneg h0
    norm_num [BASE_GAME_HEIGHT, PLAYER_SIZE]
  have hy1 : rY * (BASE_GAME_HEIGHT - PLAYER_SIZE) < BASE_GAME_HEIGHT - PLAYER_SIZE := by
    have hpos : (0 : ℚ) < BASE_GAME_HEIGHT - PLAYER_SIZE := by
      norm_num [BASE_GAME_HEIGHT, PLAYER_SIZE]
    exact (mul_lt_iff_lt_one_left hpos).mpr h1
  refine ⟨⟨rfl, ?_, ?_, hy0, hy1⟩, ⟨rfl, ?_, ?_, hy0, hy1⟩⟩ <;>
    norm_num [spawnCollectible, spawnObstacle, PLAYER_SIZE]

/-- C4 witness: at vertical draw one half both spawns are legal and land at
y = 280, inside the proved range. -/
theorem c4_spawn_amended_witness :
    (spawnCollectible (1/2) (1/2) (1/2)).x = BASE_GAME_WIDTH ∧
    0 ≤ (spawnObstacle (1/2) (1/2) (1/2)).y ∧
    (spawnObstacle (1/2) (1/2) (1/2)).y < BASE_GAME_HEIGHT - PLAYER_SIZE :=
  ⟨(c4_spawn_amended (1/2) (1/2) (1/2) (by norm_num) (by norm_num)).1.1,
   (c4_spawn_amended (1/2) (1/2) (1/2) (by norm_num) (by norm_num)).2.2.2.2.1,
   (c4_spawn_amended (1/2) (1/2) (1/2) (by norm_num) (by norm_num)).2.2.2.2.2⟩

/-- C3 counterexample: an obstacle at pre-scroll x = −50 is culled by the
scroller even though −50 is not at most −entitySize = −60; the source
compares every entity against `-PLAYER_SIZE` (−40). -/
theorem c3_counterexample :
    scrollObstacles [strayObstacle] 6 = [] ∧
    ¬(strayObstacle.x ≤ -strayObstacle.width) := by
  constructor
  · simp [scrollObstacles, strayObstacle, PLAYER_SIZE]
    norm_num
  · norm_num [strayObstacle]

/-- C3 (amended): on an active evaluated tick (delta above the 16 ms gate,
non-negative score) the scroll displacement of each list is positive, the
survivors of the cull-and-scroll step are exactly the images — with
strictly decreased x — of the entities whose pre-scroll x exceeds
`-PLAYER_SIZE = -40` (the same base-unit threshold for collectibles AND
obstacles), and every such entity does survive. -/
theorem c3_scroll_amended (cs : List Collectible) (os : List Obstacle)
    (score dt : ℚ) (hs : 0 ≤ score) (hdt : 16 < dt) :
    0 < (getSpeeds score).1 * (dt / 16) ∧
    0 < (getSpeeds score).2 * (dt / 16) ∧
    (∀ c ∈ scrollCollectibles cs ((getSpeeds score).1 * (dt / 16)), ∃ c0 ∈ cs,
      -PLAYER_SIZE < c0.x ∧ c = { c0 with x := c0.x - (getSpeeds score).1 * (dt / 16) } ∧
        c.x < c0.x) ∧
    (∀ c0 ∈ cs, -PLAYER_SIZE < c0.x →
      { c0 with x := c0.x - (getSpeeds score).1 * (dt / 16) } ∈
        scrollCollectibles cs ((getSpeeds score).1 * (dt / 16))) ∧
    (∀ o ∈ scrollObstacles os ((getSpeeds score).2 * (dt / 16)), ∃ o0 ∈ os,
      -PLAYER_SIZE < o0.x ∧ o = { o0 with x := o0.x - (getSpeeds score).2 * (dt / 16) } ∧
        o.x < o0.x) ∧
    (∀ o0 ∈ os, -PLAYER_SIZE < o0.x →
      { o0 with x := o0.x - (getSpeeds score).2 * (dt / 16) } ∈
        scrollObstacles os ((getSpeeds score).2 * (dt / 16))) := by
  have hmulQ : (0 : ℚ) ≤ (⌊score / 100⌋ : ℚ) := by
    have : (0 : ℤ) ≤ ⌊score / 100⌋ := Int.floor_nonneg.mpr (by positivity)
    exact_mod_cast this
  have hmul : 1 ≤ getDifficultyMultiplier score := by
    unfold getDifficultyMultiplier
    linarith
  have hts : (0 : ℚ) < dt / 16 := by linarith
  have hhm : 0 < (getSpeeds score).1 * (dt / 16) := by
    apply mul_pos _ hts
    simp only [getSpeeds, BASE_HORIZONTAL_SPEED]
    linarith
  have hom : 0 < (getSpeeds score).2 * (dt / 16) := by
    apply mul_pos _ hts
    simp only [getSpeeds, BASE_OBSTACLE_SPEED]
    linarith
  refine ⟨hhm, hom, ?_, ?_, ?_, ?_⟩
  · intro c hc
    simp only [scrollCollectibles, List.mem_map, List.mem_filter,
      decide_eq_true_eq] at hc
    obtain ⟨c0, ⟨hmem, hx⟩, hceq⟩ := hc
    exact ⟨c0, hmem, by linarith, hceq.symm, by rw [← hceq]; simpa using by linarith⟩
  · intro c0 hmem hx
    simp only [scrollCollectibles, List.mem_map, List.mem_filter, decide_eq_true_eq]
    exact ⟨c0, ⟨hmem, by linarith⟩, rfl⟩
  · intro o ho
    simp only [scrollObstacles, List.mem_map, List.mem_filter,
      decide_eq_true_eq] at ho
    obtain ⟨o0, ⟨hmem, hx⟩, hoeq⟩ := ho
    exact ⟨o0, hmem, by linarith, hoeq.symm, by rw [← hoeq]; simpa using by linarith⟩
  · intro o0 hmem hx
    simp only [scrollObstacles, List.mem_map, List.mem_filter, decide_eq_true_eq]
    exact ⟨o0, ⟨hmem, by linarith⟩, rfl⟩

/-- C3 witness: at score 0 and a 32 ms tick the collectible displacement is
6 and a token at x = 100 survives the scroll at x = 94. -/
theorem c3_scroll_amended_witness :
    0 < (getSpeeds 0).1 * ((32 : ℚ) / 16) ∧
    { sampleToken with x := sampleToken.x - (getSpeeds 0).1 * ((32 : ℚ) / 16) } ∈
      scrollCollectibles [sampleToken] ((getSpeeds 0).1 * ((32 : ℚ) / 16)) :=
  ⟨(c3_scroll_amended [sampleToken] [] 0 32 (by norm_num) (by norm_num)).1,
   (c3_scroll_amended [sampleToken] [] 0 32 (by norm_num) (by norm_num)).2.2.2.1
     sampleToken (by simp) (by norm_num [sampleToken, PLAYER_SIZE])⟩

/-! ## Helper lemmas for physics and invariants -/

theorem checkCollisions_player_y (s : GameState) :
    (checkCollisions s).player.y = s.player.y := by
  simp [checkCollisions]

theorem checkCollisions_player_velocity (s : GameState) :
    (checkCollisions s).player.velocity = s.player.velocity := by
  simp [checkCollisions]

theorem gameLoopTick_player_pose (prev : GameState) (dt : ℚ) (r : TickRand)
    (hgo : prev.isGameOver = false) (hp : prev.isPaused = false) :
    (gameLoopTick prev dt r).player.y = (integratePlayer prev.player).y ∧
    (gameLoopTick prev dt r).player.velocity = (integratePlayer prev.player).velocity := by
  simp [gameLoopTick, hgo, hp, checkCollisions_player_y, checkCollisions_player_velocity]

theorem integratePlayer_spec (p : Player) :
    0 ≤ (integratePlayer p).y ∧
    (integratePlayer p).y ≤ BASE_GAME_HEIGHT - PLAYER_SIZE ∧
    (p.y + (p.velocity + GRAVITY) > BASE_GAME_HEIGHT - PLAYER_SIZE →
      (integratePlayer p).y = BASE_GAME_HEIGHT - PLAYER_SIZE ∧
      (integratePlayer p).velocity = 0) ∧
    (p.y + (p.velocity + GRAVITY) < 0 →
      (integratePlayer p).y = 0 ∧ 0 ≤ (integratePlayer p).velocity) := by
  have hwin : (0 : ℚ) < BASE_GAME_HEIGHT - PLAYER_SIZE := by
    norm_num [BASE_GAME_HEIGHT, PLAYER_SIZE]
  simp only [integratePlayer]
  split_ifs with h1 h2 h2 <;>
    refine ⟨?_, ?_, fun hc => ⟨?_, ?_⟩, fun hf => ⟨?_, ?_⟩⟩ <;>
    first
      | rfl
      | linarith
      | simp

theorem TIME_BONUS_nonneg (t : CollectibleType) : 0 ≤ TIME_BONUS t := by
  cases t <;> norm_num [TIME_BONUS]

theorem updateScore_nonneg (t : CollectibleType) (b : Bool) :
    0 ≤ updateScore t b := by
  cases t <;> cases b <;> norm_num [updateScore, SCORE_VALUES]

theorem checkCollisions_timeLeft_nonneg (s : GameState) (h : 0 ≤ s.timeLeft) :
    0 ≤ (checkCollisions s).timeLeft := by
  have hb := processCollectibles_timeBonus s.player s.collectibles s.score 0
    s.player.isInvincible s.player.hasDoublePoints
  have hsum : 0 ≤ ((s.collectibles.filter fun c =>
      collidesWithCollectible s.player c).map fun c => TIME_BONUS c.type).sum := by
    apply List.sum_nonneg
    intro x hx
    obtain ⟨c, _, hc⟩ := List.mem_map.mp hx
    rw [← hc]
    exact TIME_BONUS_nonneg c.type
  simp only [checkCollisions, hb]
  linarith

theorem checkCollisions_score_mono (s : GameState) :
    s.score ≤ (checkCollisions s).score := by
  have hb := processCollectibles_score s.player s.collectibles s.score 0
    s.player.isInvincible s.player.hasDoublePoints
  have hsum : 0 ≤ ((s.collectibles.filter fun c =>
      collidesWithCollectible s.player c).map fun c =>
        updateScore c.type s.player.hasDoublePoints).sum := by
    apply List.sum_nonneg
    intro x hx
    obtain ⟨c, _, hc⟩ := List.mem_map.mp hx
    rw [← hc]
    exact updateScore_nonneg c.type s.player.hasDoublePoints
  simp only [checkCollisions, hb]
  linarith

/-- C5: on every evaluated tick in the Playing state the post-integration
player y lies in `[0, playfieldHeight − playerSize] = [0, 560]`; a ceiling
clamp zeroes the velocity and a floor clamp leaves the velocity at least 0. -/
theorem c5_player_bounds (prev : GameState) (dt : ℚ) (r : TickRand)
    (hgo : prev.isGameOver = false) (hp : prev.isPaused = false) :
    0 ≤ (gameLoopTick prev dt r).player.y ∧
    (gameLoopTick prev dt r).player.y ≤ BASE_GAME_HEIGHT - PLAYER_SIZE ∧
    (prev.player.y + (prev.player.velocity + GRAVITY) > BASE_GAME_HEIGHT - PLAYER_SIZE →
      (gameLoopTick prev dt r).player.y = BASE_GAME_HEIGHT - PLAYER_SIZE ∧
      (gameLoopTick prev dt r).player.velocity = 0) ∧
    (prev.player.y + (prev.player.velocity + GRAVITY) < 0 →
      (gameLoopTick prev dt r).player.y = 0 ∧
      0 ≤ (gameLoopTick prev dt r).player.velocity) := by
  obtain ⟨hy, hv⟩ := gameLoopTick_player_pose prev dt r hgo hp
  have hs := integratePlayer_spec prev.player
  rw [hy, hv]
  exact hs

/-- C5 witness: one evaluated tick from the default session keeps the
player inside the vertical band. -/
theorem c5_player_bounds_witness :
    0 ≤ (gameLoopTick initialGameState 17 sampleRand).player.y ∧
    (gameLoopTick initialGameState 17 sampleRand).player.y ≤
      BASE_GAME_HEIGHT - PLAYER_SIZE :=
  ⟨(c5_player_bounds initialGameState 17 sampleRand rfl rfl).1,
   (c5_player_bounds initialGameState 17 sampleRand rfl rfl).2.1⟩

/-- C7: an evaluated tick never drives `timeLeft` below 0 and never lowers
the score, and the one-second timer reducer floors `timeLeft` at 0 and
leaves the score unchanged. -/
theorem c7_session_invariants (prev : GameState) (dt : ℚ) (r : TickRand)
    (h : 0 ≤ prev.timeLeft) :
    0 ≤ (gameLoopTick prev dt r).timeLeft ∧
    prev.score ≤ (gameLoopTick prev dt r).score ∧
    0 ≤ (timerTick prev).timeLeft ∧
    (timerTick prev).score = prev.score := by
  by_cases hg : (prev.isGameOver || prev.isPaused) = true
  · refine ⟨?_, ?_, le_max_left 0 _, rfl⟩
    · simpa [gameLoopTick, hg] using h
    · simp [gameLoopTick, hg]
  · have hg0 : (prev.isGameOver || prev.isPaused) = false := by
      simpa using hg
    refine ⟨?_, ?_, le_max_left 0 _, rfl⟩
    · simp only [gameLoopTick, hg0, Bool.false_eq_true, if_false]
      exact checkCollisions_timeLeft_nonneg _ h
    · simp only [gameLoopTick, hg0, Bool.false_eq_true, if_false]
      exact checkCollisions_score_mono _

/-- C7 witness: the invariants instantiated at the default session. -/
theorem c7_session_invariants_witness :
    0 ≤ (gameLoopTick initialGameState 17 sampleRand).timeLeft ∧
    initialGameState.score ≤ (gameLoopTick initialGameState 17 sampleRand).score ∧
    0 ≤ (timerTick initialGameState).timeLeft ∧
    (timerTick initialGameState).score = initialGameState.score :=
  c7_session_invariants initialGameState 17 sampleRand (by norm_num [initialGameState, INITIAL_TIME])

/-- C8 (amended): while paused or game-over, an evaluated tick of the
physics/spawn/collision pipeline is the identity on the snapshot. The jump
input is NOT inert in these states — see the counterexample. -/
theorem c8_passthrough (prev : GameState) (dt : ℚ) (r : TickRand)
    (h : prev.isPaused = true ∨ prev.isGameOver = true) :
    gameLoopTick prev dt r = prev := by
  rcases h with h | h <;> simp [gameLoopTick, h]

/-- C8 witness: a tick on the paused default session changes nothing. -/
theorem c8_passthrough_witness :
    gameLoopTick pausedState 17 sampleRand = pausedState :=
  c8_passthrough pausedState 17 sampleRand (Or.inl rfl)

/-- C8 counterexample: in the paused state the jump handler — which is not
one of the explicit pause/resume/restart transitions — still mutates the
session, overwriting the player's velocity with the jump impulse. -/
theorem c8_counterexample :
    pausedState.isPaused = true ∧
    (handleInteraction pausedState).player.velocity = JUMP_FORCE ∧
    pausedState.player.velocity = 0 ∧
    handleInteraction pausedState ≠ pausedState := by
  refine ⟨rfl, rfl, rfl, fun hcontra => ?_⟩
  have hv := congrArg (fun st => st.player.velocity) hcontra
  norm_num [handleInteraction, pausedState, initialGameState, initialPlayer,
    JUMP_FORCE] at hv

/-- C9: the deferred double-points expiry callback is NOT inert after a
restart: applied to a restarted session that has re-armed double points in
the new run, it clears the new session's flag (the source merges
`hasDoublePoints := false` into whatever snapshot is current, with no
cancellation or epoch guard). -/
theorem c9_stale_callback_clears :
    postRestartArmed.player.hasDoublePoints = true ∧
    (clearDoublePoints postRestartArmed).player.hasDoublePoints = false ∧
    clearDoublePoints postRestartArmed ≠ postRestartArmed := by
  refine ⟨rfl, rfl, fun hcontra => ?_⟩
  have hv := congrArg (fun st => st.player.hasDoublePoints) hcontra
  simp [clearDoublePoints, postRestartArmed, initialPlayer] at hv

end YumeCatcher
